import Mathlib

/-!
# Verification of the PIR (Pipeline Intermediate Representation) core

A shallow embedding of `pirlib/pir.py` and `pirlib/backends/inproc.py`:
the package/graph data model, the validators, the subgraph flattener and
the in-process execution scheduler, together with theorems settling the
frozen behavioural claims about them.

Conventions of the embedding:
* Python exceptions become an explicit error type `Err`; a raising
  operation returns `Except Err _`.  `ValidationError` (a `ValueError`
  subclass used by all structural checks) is kept distinct from a plain
  `ValueError`, mirroring the Python class distinction.
* Python `while` loops and recursions whose termination depends on a
  datastructure invariant are given an explicit fuel argument; the fuel
  values supplied by the wrappers are large enough that the marker error
  for exhausted fuel is unreachable on the executions studied here.
* `typeguard`-based field/shape checks (`_validate_fields` in the source)
  hold by construction in a typed embedding, so they are modelled as the
  always-succeeding check.
* Python `dict`s become association lists with the usual
  insert-or-update operation (`dset`) and first-match lookup (`dget`).
-/

set_option autoImplicit false

namespace Pir

/-- Error kinds that the modelled code can raise.  `validationError` is the
`pirlib.pir.ValidationError` class (all structural validation failures);
`valueError` is a plain Python `ValueError`; the remaining constructors
model other Python exception kinds reachable from the modelled code. -/
inductive Err where
  | validationError (msg : String)
  | valueError (msg : String)
  | runtimeError (msg : String)
  | attributeError (msg : String)
  | keyError (key : String)
  | unboundLocalError (msg : String)
deriving DecidableEq, Repr

/-- Config mappings (`Dict[str, Any]` in the source) are opaque to every
operation modelled here (validation, flattening, scheduling never inspect
them), so their values are modelled as plain strings. -/
abbrev Config := List (String × String)

/-- `pirlib.pir.Entrypoint`. -/
structure Entrypoint where
  version : String
  handler : String
  runtime : String
  codeurl : Option String := none
  image : Option String := none
deriving DecidableEq, Repr

/-- `pirlib.pir.Framework`. -/
structure Framework where
  name : String
  config : Config := []
deriving DecidableEq, Repr

/-- `pirlib.pir.DataSource`: a reference to the producer of a value.  The
source keeps all four optional fields; which combinations are legal is
decided by `DataSource.validate`. -/
structure DataSource where
  node : Option String := none
  subgraph : Option String := none
  output : Option String := none
  graph_input : Option String := none
deriving DecidableEq, Repr

/-- `pirlib.pir.Input`: a named input of a node or subgraph. -/
structure Input where
  name : String
  iotype : String
  source : DataSource
deriving DecidableEq, Repr

/-- `pirlib.pir.Output`: a named output of a node or subgraph. -/
structure Output where
  name : String
  iotype : String
deriving DecidableEq, Repr

/-- `pirlib.pir.GraphInput`. -/
structure GraphInput where
  name : String
  iotype : String
deriving DecidableEq, Repr

/-- `pirlib.pir.GraphOutput`. -/
structure GraphOutput where
  name : String
  iotype : String
  source : DataSource
deriving DecidableEq, Repr

/-- `pirlib.pir.Subgraph`: an embedding of another graph of the package. -/
structure Subgraph where
  name : String
  graph : String
  config : Config := []
  inputs : List Input := []
  outputs : List Output := []
deriving DecidableEq, Repr

/-- `pirlib.pir.Node`. -/
structure Node where
  name : String
  entrypoint : Entrypoint
  framework : Option Framework := none
  config : Config := []
  inputs : List Input := []
  outputs : List Output := []
deriving DecidableEq, Repr

/-- `pirlib.pir.Graph`. -/
structure Graph where
  name : String
  nodes : List Node := []
  subgraphs : List Subgraph := []
  inputs : List GraphInput := []
  outputs : List GraphOutput := []
deriving DecidableEq, Repr

/-- `pirlib.pir.Package`. -/
structure Package where
  graphs : List Graph := []
deriving DecidableEq, Repr

/-- Access to the `name` attribute, as used by `find_by_name` and
`_validate_names` on every entity kind. -/
class Named (α : Type) where
  name : α → String

instance : Named Graph := ⟨Graph.name⟩

instance : Named Node := ⟨Node.name⟩

instance : Named Subgraph := ⟨Subgraph.name⟩

instance : Named Input := ⟨Input.name⟩

instance : Named Output := ⟨Output.name⟩

instance : Named GraphInput := ⟨GraphInput.name⟩

instance : Named GraphOutput := ⟨GraphOutput.name⟩

/-- Modelled from the spec: `pirlib.utils.find_by_name` is imported by the
sources but `pirlib/utils.py` is not among the provided files.  The spec
describes it as a name-based lookup scan over a collection of named
entities, returning the found entity or nothing ("Name-based lookup
scans", section 9); the first entity carrying the name is returned. -/
def find_by_name {α : Type} [Named α] (items : List α) (target : String) : Option α :=
  items.find? (fun x => Named.name x == target)

/-- `pirlib.pir._validate_fields`: the source checks each dataclass field
against its type annotation with `typeguard`.  Every such check holds by
construction in this typed embedding, so the check always succeeds. -/
def _validate_fields {α : Type} (_x : α) : Except Err Unit := .ok ()

/-- The `once`/`twice` set construction of `pirlib.pir._validate_names`:
one pass over the names; a name seen before enters the `twice`
collection (at most once, mirroring Python set semantics). -/
def dupAux : List String → List String → List String → List String
  | [], _, twice => twice
  | x :: xs, once, twice =>
    if x ∈ once then dupAux xs once (if x ∈ twice then twice else twice ++ [x])
    else dupAux xs (once ++ [x]) twice

/-- The names that occur more than once in `names`, each listed once. -/
def dupNames (names : List String) : List String :=
  dupAux names [] []

/-- The message text of the duplicate-name error. -/
def dupMessage (label : String) (twice : List String) : String :=
  "duplicate " ++ label ++ " name(s): " ++
    String.intercalate ", " (twice.map (fun n => "'" ++ n ++ "'"))

/-- `pirlib.pir._validate_names`. -/
def _validate_names {α : Type} [Named α] (items : List α) (label : String) : Except Err Unit :=
  let twice := dupNames (items.map (Named.name : α → String))
  if twice.isEmpty then .ok ()
  else .error (.validationError (dupMessage label twice))

/-- Re-raising with added context: `except ValidationError as err: raise
ValidationError(f"<ctx>: {err}")`.  Only a `ValidationError` is caught
and wrapped; any other error passes through unchanged. -/
def withCtx {α : Type} (ctx : String) (act : Except Err α) : Except Err α :=
  match act with
  | .error (.validationError msg) => .error (.validationError (ctx ++ ": " ++ msg))
  | r => r

/-- Sequential `for` loop over a list in which each body may raise. -/
def forEachE {α : Type} (f : α → Except Err Unit) : List α → Except Err Unit
  | [] => .ok ()
  | x :: xs =>
    match f x with
    | .error e => .error e
    | .ok _ => forEachE f xs

/-- `DataSource.validate`: exactly one of `node`, `subgraph`,
`graph_input` must be populated, and `output` is required whenever
`node` or `subgraph` is. -/
def DataSource.validate (s : DataSource) : Except Err Unit :=
  match _validate_fields s with
  | .error e => .error e
  | .ok _ =>
    let count := [s.node.isSome, s.subgraph.isSome, s.graph_input.isSome].count true
    if count ≠ 1 then
      .error (.validationError "exactly one of 'node', 'subgraph', or 'graph_input' is expected")
    else if (s.node.isSome || s.subgraph.isSome) && s.output.isNone then
      .error (.validationError "'output' is required if either 'node' or 'subgraph' is provided")
    else .ok ()

/-- `GraphInput.validate`. -/
def GraphInput.validate (i : GraphInput) : Except Err Unit :=
  _validate_fields i

/-- `GraphOutput.validate`: field check then source check (the source
failure is not wrapped with any context here). -/
def GraphOutput.validate (o : GraphOutput) : Except Err Unit :=
  match _validate_fields o with
  | .error e => .error e
  | .ok _ => o.source.validate

/-- `Output.validate`. -/
def Output.validate (o : Output) : Except Err Unit :=
  _validate_fields o

/-- `Input.validate`: field check, then the source check wrapped with
`source:` context. -/
def Input.validate (i : Input) : Except Err Unit :=
  match _validate_fields i with
  | .error e => .error e
  | .ok _ => withCtx "source" i.source.validate

/-- `Entrypoint.validate`. -/
def Entrypoint.validate (e : Entrypoint) : Except Err Unit :=
  _validate_fields e

/-- `Framework.validate`. -/
def Framework.validate (f : Framework) : Except Err Unit :=
  _validate_fields f

/-- `Subgraph.validate`: fields, then each input (wrapped), input name
uniqueness, each output (wrapped), output name uniqueness. -/
def Subgraph.validate (s : Subgraph) : Except Err Unit :=
  match _validate_fields s with
  | .error e => .error e
  | .ok _ =>
  match forEachE (fun i => withCtx ("input '" ++ i.name ++ "'") i.validate) s.inputs with
  | .error e => .error e
  | .ok _ =>
  match _validate_names s.inputs "input" with
  | .error e => .error e
  | .ok _ =>
  match forEachE (fun o => withCtx ("output '" ++ o.name ++ "'") o.validate) s.outputs with
  | .error e => .error e
  | .ok _ => _validate_names s.outputs "output"

/-- `Node.validate`: fields, inputs (wrapped) and their name uniqueness,
outputs (wrapped) and their name uniqueness, the entrypoint (wrapped),
and the optional framework (wrapped). -/
def Node.validate (n : Node) : Except Err Unit :=
  match _validate_fields n with
  | .error e => .error e
  | .ok _ =>
  match forEachE (fun i => withCtx ("input '" ++ i.name ++ "'") i.validate) n.inputs with
  | .error e => .error e
  | .ok _ =>
  match _validate_names n.inputs "input" with
  | .error e => .error e
  | .ok _ =>
  match forEachE (fun o => withCtx ("output '" ++ o.name ++ "'") o.validate) n.outputs with
  | .error e => .error e
  | .ok _ =>
  match _validate_names n.outputs "output" with
  | .error e => .error e
  | .ok _ =>
  match withCtx "entrypoint" n.entrypoint.validate with
  | .error e => .error e
  | .ok _ =>
    match n.framework with
    | none => .ok ()
    | some fw => withCtx "framework" fw.validate

/-- A vertex of the intra-graph dependency walk: the `nodes + subgraphs`
concatenation iterated by `Graph._validate_acyclicity` (and by the
name-uniqueness check over nodes and subgraphs combined). -/
inductive NS where
  | node (n : Node)
  | sub (s : Subgraph)
deriving DecidableEq, Repr

/-- The name of a node-or-subgraph vertex. -/
def NS.name : NS → String
  | .node n => n.name
  | .sub s => s.name

/-- The inputs of a node-or-subgraph vertex. -/
def NS.inputs : NS → List Input
  | .node n => n.inputs
  | .sub s => s.inputs

instance : Named NS := ⟨NS.name⟩

/-- Printing of an optional string inside an f-string (`None` for the
absent case), used in the missing-output message of `_validate_source`. -/
def optText : Option String → String
  | some s => s
  | none => "None"

/-- `Graph._validate_source`: resolve a `DataSource` inside graph `g` and
compare the resolved iotype with the consumer's declared one.  When none
of the three reference fields is populated the Python function reads the
never-assigned local `source_iotype`, an `UnboundLocalError`. -/
def Graph._validate_source (g : Graph) (source : DataSource) (iotype : String) :
    Except Err Unit :=
  let resolved : Except Err String :=
    match source.graph_input with
    | some gi =>
      match find_by_name g.inputs gi with
      | none => .error (.validationError ("reference to missing graph input '" ++ gi ++ "'"))
      | some graph_input => .ok graph_input.iotype
    | none =>
      match source.node with
      | some nd =>
        match find_by_name g.nodes nd with
        | none => .error (.validationError ("reference to missing node '" ++ nd ++ "'"))
        | some node =>
          match source.output.bind (fun o => find_by_name node.outputs o) with
          | none =>
            .error (.validationError ("reference to missing output '" ++ optText source.output ++
              "' of node '" ++ node.name ++ "'"))
          | some output => .ok output.iotype
      | none =>
        match source.subgraph with
        | some sg =>
          match find_by_name g.subgraphs sg with
          | none => .error (.validationError ("reference to missing subgraph '" ++ sg ++ "'"))
          | some subgraph =>
            match source.output.bind (fun o => find_by_name subgraph.outputs o) with
            | none =>
              .error (.validationError ("reference to missing output '" ++ optText source.output ++
                "' of subgraph '" ++ subgraph.name ++ "'"))
            | some output => .ok output.iotype
        | none =>
          .error (.unboundLocalError
            "local variable 'source_iotype' referenced before assignment")
  match resolved with
  | .error e => .error e
  | .ok source_iotype =>
    if source_iotype ≠ iotype then
      .error (.validationError ("iotype '" ++ iotype ++ "' differs from source iotype '" ++
        source_iotype ++ "'"))
    else .ok ()

/-- `Graph._validate_connectivity`: resolve every graph output, node input
and subgraph input, wrapping failures with the owner's context. -/
def Graph._validate_connectivity (g : Graph) : Except Err Unit :=
  match forEachE (fun out =>
      withCtx ("graph output '" ++ out.name ++ "'")
        (g._validate_source out.source out.iotype)) g.outputs with
  | .error e => .error e
  | .ok _ =>
  match forEachE (fun node => forEachE (fun inp =>
      withCtx ("node '" ++ node.name ++ "': input '" ++ inp.name ++ "'")
        (g._validate_source inp.source inp.iotype)) node.inputs) g.nodes with
  | .error e => .error e
  | .ok _ =>
    forEachE (fun sub => forEachE (fun inp =>
      withCtx ("subgraph '" ++ sub.name ++ "': input '" ++ inp.name ++ "'")
        (g._validate_source inp.source inp.iotype)) sub.inputs) g.subgraphs

/-- One pass of neighbour generation in `_validate_acyclicity`: for each
input of the popped item, in order, look the referenced node or subgraph
up; a reference equal to the traversal root raises the cycle error, any
other reference (including an unresolvable one, which Python appends as
`None`) is collected for pushing onto the stack. -/
def expandInputs (g : Graph) (root : NS) : List Input → Except Err (List (Option NS))
  | [] => .ok []
  | inp :: rest =>
    match inp.source.node with
    | some nm =>
      let item := (find_by_name g.nodes nm).map NS.node
      if item = some root then
        .error (.validationError ("cycle detected containing node '" ++ nm ++ "'"))
      else
        match expandInputs g root rest with
        | .error e => .error e
        | .ok items => .ok (item :: items)
    | none =>
      match inp.source.subgraph with
      | some nm =>
        let item := (find_by_name g.subgraphs nm).map NS.sub
        if item = some root then
          .error (.validationError ("cycle detected containing subgraph '" ++ nm ++ "'"))
        else
          match expandInputs g root rest with
          | .error e => .error e
          | .ok items => .ok (item :: items)
      | none => expandInputs g root rest

/-- The explicit-stack walk of `_validate_acyclicity` from one root.  The
two visited-name sets are threaded through and returned, because the
Python code shares them across the walks started from different roots.
The stack holds `Option NS` items (Python pushes the raw result of
`find_by_name`, which may be `None`; popping `None` fails at
`item.inputs` with an `AttributeError`).  Fuel bounds the `while` loop;
each iteration pops one item and every vertex is expanded at most once,
so the wrapper's fuel is never exhausted. -/
def acycVisit (g : Graph) (root : NS) :
    Nat → List (Option NS) → List String → List String →
    Except Err (List String × List String)
  | 0, _, _, _ => .error (.runtimeError "unreachable: acyclicity fuel exhausted")
  | _ + 1, [], vn, vs => .ok (vn, vs)
  | fuel + 1, item? :: stack, vn, vs =>
    match item? with
    | none => .error (.attributeError "'NoneType' object has no attribute 'inputs'")
    | some (NS.node n) =>
      if n.name ∈ vn then acycVisit g root fuel stack vn vs
      else
        match expandInputs g root n.inputs with
        | .error e => .error e
        | .ok items => acycVisit g root fuel (items.reverse ++ stack) (n.name :: vn) vs
    | some (NS.sub s) =>
      if s.name ∈ vs then acycVisit g root fuel stack vn vs
      else
        match expandInputs g root s.inputs with
        | .error e => .error e
        | .ok items => acycVisit g root fuel (items.reverse ++ stack) vn (s.name :: vs)

/-- The outer loop of `_validate_acyclicity`: every node and subgraph, in
declaration order, serves once as traversal root; the visited sets
persist from one root's walk to the next. -/
def acycRoots (g : Graph) (fuel : Nat) :
    List NS → List String → List String → Except Err Unit
  | [], _, _ => .ok ()
  | root :: roots, vn, vs =>
    match acycVisit g root fuel [some root] vn vs with
    | .error e => .error e
    | .ok (vn', vs') => acycRoots g fuel roots vn' vs'

/-- Total number of node and subgraph inputs of a graph (a bound on the
stack growth of one acyclicity walk). -/
def totalInputCount (g : Graph) : Nat :=
  (g.nodes.map (fun n => n.inputs.length)).sum +
    (g.subgraphs.map (fun s => s.inputs.length)).sum

/-- `Graph._validate_acyclicity`. -/
def Graph._validate_acyclicity (g : Graph) : Except Err Unit :=
  acycRoots g (totalInputCount g + g.nodes.length + g.subgraphs.length + 2)
    (g.nodes.map NS.node ++ g.subgraphs.map NS.sub) [] []

/-- `Graph.validate`: fields, every node and subgraph (wrapped), name
uniqueness over nodes and subgraphs combined, graph inputs (wrapped) and
their uniqueness, graph outputs (wrapped) and their uniqueness,
connectivity, acyclicity. -/
def Graph.validate (g : Graph) : Except Err Unit :=
  match _validate_fields g with
  | .error e => .error e
  | .ok _ =>
  match forEachE (fun n => withCtx ("node '" ++ n.name ++ "'") n.validate) g.nodes with
  | .error e => .error e
  | .ok _ =>
  match forEachE (fun s => withCtx ("subgraph '" ++ s.name ++ "'") s.validate) g.subgraphs with
  | .error e => .error e
  | .ok _ =>
  match _validate_names (g.nodes.map NS.node ++ g.subgraphs.map NS.sub) "node or subgraph" with
  | .error e => .error e
  | .ok _ =>
  match forEachE (fun i => withCtx ("graph input '" ++ i.name ++ "'") i.validate) g.inputs with
  | .error e => .error e
  | .ok _ =>
  match _validate_names g.inputs "graph input" with
  | .error e => .error e
  | .ok _ =>
  match forEachE (fun o => withCtx ("graph output '" ++ o.name ++ "'") o.validate) g.outputs with
  | .error e => .error e
  | .ok _ =>
  match _validate_names g.outputs "graph output" with
  | .error e => .error e
  | .ok _ =>
  match g._validate_connectivity with
  | .error e => .error e
  | .ok _ => g._validate_acyclicity

/-- `Package._validate_subgraph`: the referenced graph must exist in the
package, and each declared subgraph input/output must match an
input/output of that graph by name and iotype. -/
def Package._validate_subgraph (p : Package) (sub : Subgraph) : Except Err Unit :=
  match find_by_name p.graphs sub.graph with
  | none =>
    .error (.validationError ("subgraph '" ++ sub.name ++ "' refers to missing graph '" ++
      sub.graph ++ "'"))
  | some graph =>
    match forEachE (fun inp =>
        match find_by_name graph.inputs inp.name with
        | none =>
          .error (.validationError ("subgraph '" ++ sub.name ++ "' input '" ++ inp.name ++
            "' could not be found in graph '" ++ sub.graph ++ "'"))
        | some g_inp =>
          if g_inp.iotype ≠ inp.iotype then
            .error (.validationError ("subgraph '" ++ sub.name ++ "' input '" ++ inp.name ++
              "' iotype '" ++ inp.iotype ++ "' does not match graph '" ++ sub.graph ++
              "' input iotype '" ++ g_inp.iotype ++ "'"))
          else .ok ()) sub.inputs with
    | .error e => .error e
    | .ok _ =>
      forEachE (fun out =>
        match find_by_name graph.outputs out.name with
        | none =>
          .error (.validationError ("subgraph '" ++ sub.name ++ "' output '" ++ out.name ++
            "' could not be found in graph '" ++ sub.graph ++ "'"))
        | some g_out =>
          if g_out.iotype ≠ out.iotype then
            .error (.validationError ("subgraph '" ++ sub.name ++ "' output '" ++ out.name ++
              "' iotype '" ++ out.iotype ++ "' does not match graph '" ++ sub.graph ++
              "' output iotype '" ++ g_out.iotype ++ "'"))
          else .ok ()) sub.outputs

/-- `Package._is_recursive`: does `graph` transitively embed a graph whose
name is already on the current path (`visited`)?  The Python method can
be called (through `find_by_name`) with `None` when a subgraph reference
dangles, in which case reading `graph.name` raises an `AttributeError`.
Fuel bounds the recursion depth: each level appends a fresh name to the
path, and a repeated name returns immediately, so a depth of
`p.graphs.length + 2` is never exceeded. -/
def Package._is_recursive (p : Package) : Nat → Option Graph → List String → Except Err Bool
  | 0, _, _ => .error (.runtimeError "unreachable: recursion-check fuel exhausted")
  | _ + 1, none, _ => .error (.attributeError "'NoneType' object has no attribute 'name'")
  | fuel + 1, some g, visited =>
    if g.name ∈ visited then .ok true
    else
      let visited' := visited ++ [g.name]
      g.subgraphs.foldl
        (fun acc sub =>
          match acc with
          | .error e => .error e
          | .ok true => .ok true
          | .ok false => Package._is_recursive p fuel (find_by_name p.graphs sub.graph) visited')
        (.ok false)

/-- The recursive-embedding check of `Package.validate` applied to one
graph. -/
def Package.recCheck (p : Package) (g : Graph) : Except Err Unit :=
  match Package._is_recursive p (p.graphs.length + 2) (some g) [] with
  | .error e => .error e
  | .ok true => .error (.validationError "package contains recursive subgraphs")
  | .ok false => .ok ()

/-- The inner subgraph loop of `Package.validate` (`for subgraph in
graph.subgraphs: self._validate_subgraph(subgraph)`). -/
def Package.subgraphLoop (p : Package) : List Subgraph → Except Err Unit
  | [] => .ok ()
  | s :: rest =>
    match p._validate_subgraph s with
    | .error e => .error e
    | .ok _ => Package.subgraphLoop p rest

/-- The per-graph loop of `Package.validate`: validate the graph (wrapping
a `ValidationError` with the graph name), check each of its subgraph
references, then the recursive-embedding check. -/
def Package.validateLoop (p : Package) : List Graph → Except Err Unit
  | [] => .ok ()
  | g :: rest =>
    match withCtx ("graph '" ++ g.name ++ "'") g.validate with
    | .error e => .error e
    | .ok _ =>
      match Package.subgraphLoop p g.subgraphs with
      | .error e => .error e
      | .ok _ =>
        match Package.recCheck p g with
        | .error e => .error e
        | .ok _ => Package.validateLoop p rest

/-- `Package.validate`. -/
def Package.validate (p : Package) : Except Err Unit :=
  match _validate_names p.graphs "graph" with
  | .error e => .error e
  | .ok _ => p.validateLoop p.graphs

/-- The `<subgraph name>.<node name>` renaming used by the flattener. -/
def qualify (sg : String) (n : String) : String :=
  sg ++ "." ++ n

/-- Prefixing of the `node` field of a source with the subgraph name
(`i.source.node = f"{subgraph.name}.{i.source.node}"`), applied when the
field is populated. -/
def renameSourceNode (sg : String) (ds : DataSource) : DataSource :=
  match ds.node with
  | some nm => { ds with node := some (qualify sg nm) }
  | none => ds

/-- The splice loop `for o in g.outputs: if o.name == inp.source.output:
inp.source = o.source`.  Each assignment replaces the whole source, and
the next iteration compares against the *new* source's `output` field,
so this is a fold over the outputs. -/
def spliceLoop (outs : List GraphOutput) (ds0 : DataSource) : DataSource :=
  outs.foldl
    (fun acc o => if acc.output.any (fun x => o.name == x) then o.source else acc) ds0

/-- The graph-input splice loop `for si in subgraph.inputs: if
i.source.graph_input == si.name: i.source = si.source`, guarded by
`i.source.graph_input is not None` on the *original* source; again the
comparison uses the evolving source. -/
def gInputSplice (sins : List Input) (ds0 : DataSource) : DataSource :=
  if ds0.graph_input.isSome then
    sins.foldl
      (fun acc si => if acc.graph_input.any (fun x => x == si.name) then si.source else acc) ds0
  else ds0

/-- One iteration of the subgraph loop in `Package.flatten_graph`, where
`g` is the (recursively flattened) graph embedded by `sub` and `parent`
is the graph being flattened, in its current intermediate state:
1. prefix every node name in `g` and every populated `node` field of a
   source inside `g` with `"<sub.name>."`;
2. prefix the populated `node` fields of `g`'s graph-output sources;
3. in the parent, replace every node-input and graph-output source whose
   `subgraph` field names `sub` with the source declared by `g`'s
   matching output;
4. inside `g`, replace every source referring to one of the embedded
   graph's own inputs with the source carried by `sub`'s matching input;
5. append `g`'s nodes to the parent's node list. -/
def flattenStep (sub : Subgraph) (g : Graph) (parent : Graph) : Graph :=
  let renameInput : Input → Input := fun i =>
    { i with source := renameSourceNode sub.name i.source }
  let gNodes : List Node := g.nodes.map (fun n =>
    { n with
      name := qualify sub.name n.name
      inputs := n.inputs.map renameInput })
  let gOuts : List GraphOutput := g.outputs.map (fun o =>
    { o with source := renameSourceNode sub.name o.source })
  let mergeInput : Input → Input := fun inp =>
    if inp.source.subgraph.any (fun x => x == sub.name) then
      { inp with source := spliceLoop gOuts inp.source }
    else inp
  let pNodes : List Node := parent.nodes.map (fun node =>
    { node with inputs := node.inputs.map mergeInput })
  let pOuts : List GraphOutput := parent.outputs.map (fun out =>
    if out.source.subgraph.any (fun x => x == sub.name) then
      { out with source := spliceLoop gOuts out.source }
    else out)
  let spliceInput : Input → Input := fun i =>
    { i with source := gInputSplice sub.inputs i.source }
  let gNodes2 : List Node := gNodes.map (fun n =>
    { n with inputs := n.inputs.map spliceInput })
  { parent with nodes := pNodes ++ gNodes2, outputs := pOuts }

/-- `Package.flatten_graph(graph_name, validate)`: deep-copy the named
graph (a no-op on values; a missing name raises a *plain* `ValueError`),
merge each subgraph after recursively flattening its referenced graph,
clear the subgraph list, and optionally run full validation on the
result.  Fuel bounds the recursion depth; for a package free of
recursive embeddings a depth of `p.graphs.length + 1` suffices. -/
def Package.flatten_graph (p : Package) : Nat → String → Bool → Except Err Graph
  | 0, _, _ => .error (.runtimeError "unreachable: flatten fuel exhausted")
  | fuel + 1, graph_name, validate =>
    match find_by_name p.graphs graph_name with
    | none =>
      .error (.valueError ("graph with name '" ++ graph_name ++ "' not found in package"))
    | some graph0 =>
      let merged := graph0.subgraphs.foldl
        (fun (acc : Except Err Graph) sub =>
          match acc with
          | .error e => .error e
          | .ok parent =>
            match Package.flatten_graph p fuel sub.graph false with
            | .error e => .error e
            | .ok g => .ok (flattenStep sub g parent))
        (Except.ok graph0)
      match merged with
      | .error e => .error e
      | .ok graph1 =>
        let graph2 := { graph1 with subgraphs := [] }
        if validate then
          match graph2.validate with
          | .error e => .error e
          | .ok _ => .ok graph2
        else .ok graph2

/-- The fuel wrapper used by callers that hold a validated package. -/
def Package.flattenGraph (p : Package) (graph_name : String) (validate : Bool) :
    Except Err Graph :=
  p.flatten_graph (p.graphs.length + 1) graph_name validate

/-! ## The in-process backend (`pirlib/backends/inproc.py`)

`InprocBackend.execute` runs a flattened graph one node at a time.  The
values flowing between nodes are opaque to the scheduler; they are
modelled by `Value`, whose placeholder constructors mirror the
`tempfile`-allocated file/directory placeholders and the `None`
placeholder of `_execute_node`, and whose `custom` constructor stands
for arbitrary handler-produced data. -/

inductive Value where
  | filePlaceholder
  | dirPlaceholder
  | nonePlaceholder
  | custom (tag : Nat)
deriving DecidableEq, Repr

/-- Python `dict` update: replace the value of an existing key in place,
otherwise append the new pair. -/
def dset {β : Type} : List (String × β) → String → β → List (String × β)
  | [], k, v => [(k, v)]
  | (k', v') :: rest, k, v =>
    if k' = k then (k, v) :: rest else (k', v') :: dset rest k v

/-- Python `dict` lookup returning an option (`d[k]` when present). -/
def dget {β : Type} (d : List (String × β)) (k : String) : Option β :=
  (d.find? (fun kv => kv.fst == k)).map Prod.snd

/-- Python `k in d` membership test. -/
def dmem {β : Type} (d : List (String × β)) (k : String) : Bool :=
  (dget d k).isSome

/-- A map from names to concrete values (graph inputs, node inputs, one
node's outputs). -/
abbrev ValueDict := List (String × Value)

/-- The scheduler's `node_outputs` map: node name to that node's produced
outputs. -/
abbrev OutputsDict := List (String × ValueDict)

/-- The external handler: `handler.run_handler(node, inputs, outputs)`
receives the resolved inputs and the pre-allocated output placeholders
and returns the final output map (in Python it mutates the placeholder
dict in place). -/
abbrev Dispatcher := Node → ValueDict → ValueDict → ValueDict

/-- The placeholder allocation of `InprocBackend._execute_node`: a
directory placeholder for a `DIRECTORY` output, a file placeholder for a
`FILE` output, `None` otherwise, keyed by output name. -/
def initPlaceholders (node : Node) : ValueDict :=
  node.outputs.foldl
    (fun acc out =>
      dset acc out.name
        (if out.iotype = "DIRECTORY" then Value.dirPlaceholder
         else if out.iotype = "FILE" then Value.filePlaceholder
         else Value.nonePlaceholder))
    []

/-- `InprocBackend._execute_node` with the handler-resolution and
handler call abstracted into the `disp` parameter. -/
def _execute_node (disp : Dispatcher) (node : Node) (inputs : ValueDict) : ValueDict :=
  disp node inputs (initPlaceholders node)

/-- Result of the readiness scan over one node's inputs: the resolved
input map when every input is ready, `notReady` when the inner loop hit
a `break`, or a propagated Python error (the `KeyError` raised by
`inputs[...]` on a graph-input reference absent from the supplied
values). -/
inductive Readiness where
  | ready (d : ValueDict)
  | notReady
  | failed (e : Err)
deriving DecidableEq, Repr

/-- The inner `for inp in node.inputs` loop of `InprocBackend.execute`:
a graph-input source is resolved from the supplied values (a missing key
raises `KeyError`); a node source is ready only when the referenced node
is in `node_outputs` *and* the named output key is present there, else
the loop breaks (not ready).  Both `if` branches run for the same input
when both fields are populated, exactly as in the source. -/
def buildInputs (inputs : ValueDict) (node_outputs : OutputsDict) :
    List Input → ValueDict → Readiness
  | [], acc => .ready acc
  | inp :: rest, acc =>
    let step1 : Except Err ValueDict :=
      match inp.source.graph_input with
      | some gi =>
        match dget inputs gi with
        | none => .error (.keyError gi)
        | some v => .ok (dset acc inp.name v)
      | none => .ok acc
    match step1 with
    | .error e => .failed e
    | .ok acc1 =>
      match inp.source.node with
      | some nd =>
        match dget node_outputs nd with
        | none => .notReady
        | some outs =>
          match inp.source.output with
          | none => .notReady
          | some o =>
            match dget outs o with
            | none => .notReady
            | some v => buildInputs inputs node_outputs rest (dset acc1 inp.name v)
      | none => buildInputs inputs node_outputs rest acc1

/-- Result of the scan over the remaining nodes: the first fully ready
node with its resolved inputs, or `stuck` when the scan completes with
no ready node (the `for`/`else` branch), or a propagated error. -/
inductive Selection where
  | found (n : Node) (d : ValueDict)
  | stuck
  | failed (e : Err)
deriving DecidableEq, Repr

/-- The `for node in remaining_nodes` scan of `InprocBackend.execute`. -/
def selectNode (inputs : ValueDict) (node_outputs : OutputsDict) :
    List Node → Selection
  | [] => .stuck
  | n :: rest =>
    match buildInputs inputs node_outputs n.inputs [] with
    | .ready d => .found n d
    | .notReady => selectNode inputs node_outputs rest
    | .failed e => .failed e

/-- The `while True` scheduling loop of `InprocBackend.execute`.  The
first component of the result is the list of executed node names in
execution order (the sequence of dispatcher invocations); the loop runs
at most once per node, so the wrapper's fuel of `nodes.length + 1` is
never exhausted. -/
def execLoop (disp : Dispatcher) (g : Graph) (inputs : ValueDict) :
    Nat → OutputsDict → List String → List String × Except Err OutputsDict
  | 0, _, trace => (trace, .error (.runtimeError "unreachable: executor fuel exhausted"))
  | fuel + 1, node_outputs, trace =>
    let remaining := g.nodes.filter (fun n => !(dmem node_outputs n.name))
    if remaining.isEmpty then (trace, .ok node_outputs)
    else
      match selectNode inputs node_outputs remaining with
      | .stuck => (trace, .error (.runtimeError "could not finish execution"))
      | .failed e => (trace, .error e)
      | .found node node_inputs =>
        let outs := _execute_node disp node node_inputs
        execLoop disp g inputs fuel (dset node_outputs node.name outs) (trace ++ [node.name])

/-- The final `for out in graph.outputs` assembly: resolve each graph
output's source out of `node_outputs` (node case) or the supplied input
values (graph-input case); a missing key raises `KeyError`.  As in the
source, both branches run when both fields are populated. -/
def assembleOutputs (g : Graph) (inputs : ValueDict) (node_outputs : OutputsDict) :
    Except Err ValueDict :=
  g.outputs.foldl
    (fun (acc : Except Err ValueDict) out =>
      match acc with
      | .error e => .error e
      | .ok d =>
        let step1 : Except Err ValueDict :=
          match out.source.node with
          | some nd =>
            match dget node_outputs nd with
            | none => .error (.keyError nd)
            | some outs =>
              match out.source.output.bind (fun o => dget outs o) with
              | none => .error (.keyError (optText out.source.output))
              | some v => .ok (dset d out.name v)
          | none => .ok d
        match step1 with
        | .error e => .error e
        | .ok d1 =>
          match out.source.graph_input with
          | some gi =>
            match dget inputs gi with
            | none => .error (.keyError gi)
            | some v => .ok (dset d1 out.name v)
          | none => .ok d1)
    (Except.ok [])

/-- The body of `InprocBackend.execute` from the required-input check
onward, applied to an already-flattened graph (`args is None`, so the
command-line input/output adapters are skipped): check that every
declared graph input has a supplied value, run the scheduling loop, then
assemble the declared graph outputs.  The first component is the list of
dispatcher invocations in order. -/
def executeFlat (disp : Dispatcher) (g : Graph) (inputs : ValueDict) :
    List String × Except Err ValueDict :=
  match g.inputs.find? (fun inp => !(dmem inputs inp.name)) with
  | some inp => ([], .error (.valueError ("missing input '" ++ inp.name ++ "'")))
  | none =>
    match execLoop disp g inputs (g.nodes.length + 1) [] [] with
    | (trace, .error e) => (trace, .error e)
    | (trace, .ok node_outputs) =>
      (trace, assembleOutputs g inputs node_outputs)

/-- `InprocBackend.execute` in full: flatten the named graph with
validation, then run it. -/
def execute (disp : Dispatcher) (p : Package) (graph_name : String) (inputs : ValueDict) :
    List String × Except Err ValueDict :=
  match p.flattenGraph graph_name true with
  | .error e => ([], .error e)
  | .ok g => executeFlat disp g inputs

/-- The name of the first declared graph input with no supplied value, if
any (the input whose name the missing-input `ValueError` reports). -/
def firstMissingInput (g : Graph) (inputs : ValueDict) : Option String :=
  (g.inputs.find? (fun inp => !(dmem inputs inp.name))).map (fun i => i.name)

/-! ## Spec-side definitions

These definitions follow the *spec's* wording (not the code) and are
used to compare the specified behaviour with the implemented one. -/

/-- Spec wording (section 3, DataSource): "a discriminated reference with
exactly one populated variant — `FromNode{node, output}`,
`FromSubgraph{subgraph, output}`, or `FromGraphInput{graph_input}`", with
no field of another variant populated. -/
def specDataSourceOk (s : DataSource) : Bool :=
  (s.node.isSome && s.output.isSome && !s.subgraph.isSome && !s.graph_input.isSome) ||
  (s.subgraph.isSome && s.output.isSome && !s.node.isSome && !s.graph_input.isSome) ||
  (s.graph_input.isSome && !s.node.isSome && !s.subgraph.isSome && !s.output.isSome)

/-- Spec wording (section 4.2, acyclicity): "a directed edge runs from a
vertex to every vertex that one of its inputs sources from".  `specEdge
g a b` holds when the node or subgraph named `a` has an input sourcing
from the node or subgraph named `b`. -/
def specEdge (g : Graph) (a b : String) : Bool :=
  (g.nodes.map NS.node ++ g.subgraphs.map NS.sub).any (fun v =>
    v.name == a && v.inputs.any (fun i =>
      i.source.node.any (fun x => x == b) || i.source.subgraph.any (fun x => x == b)))

/-- Some subgraph declared in some graph of the package references a
graph name that does not exist in the package. -/
def hasDanglingSubgraph (p : Package) : Bool :=
  p.graphs.any (fun g => g.subgraphs.any (fun s => (find_by_name p.graphs s.graph).isNone))

/-- Does a computation's result carry the `ValidationError` kind? -/
def resultIsValidationError {α : Type} : Except Err α → Bool
  | .error (.validationError _) => true
  | _ => false

/-! ## Concrete instances used by the claims -/

/-- A concrete entrypoint, shared by all example nodes. -/
def ep : Entrypoint :=
  { version := "v1", handler := "examples.module:handler", runtime := "python:3.8" }

/-- Node `a` of the cycle example: one output `oa`, one input sourced from
node `b`'s output `ob`. -/
def nodeCycA : Node :=
  { name := "a", entrypoint := ep
    inputs := [{ name := "ia", iotype := "FILE"
                 source := { node := some "b", output := some "ob" } }]
    outputs := [{ name := "oa", iotype := "FILE" }] }

/-- Node `b` of the cycle example: one output `ob`, one input sourced from
node `a`'s output `oa` — together with `a` a directed 2-cycle. -/
def nodeCycB : Node :=
  { name := "b", entrypoint := ep
    inputs := [{ name := "ib", iotype := "FILE"
                 source := { node := some "a", output := some "oa" } }]
    outputs := [{ name := "ob", iotype := "FILE" }] }

/-- Node `c` of the cycle example: an acyclic entry vertex whose single
input sources from node `a`, placed *before* the cycle members in the
node list. -/
def nodeCycC : Node :=
  { name := "c", entrypoint := ep
    inputs := [{ name := "ic", iotype := "FILE"
                 source := { node := some "a", output := some "oa" } }]
    outputs := [] }

/-- The cycle example graph: nodes `[c, a, b]` where `c → a` and `a ↔ b`
(following input-source edges).  The walk rooted at `c` visits `a` and
`b` first, and the later walks rooted at `a` and `b` are skipped by the
persistent visited set, so the 2-cycle goes undetected. -/
def graphCycleBug : Graph :=
  { name := "G", nodes := [nodeCycC, nodeCycA, nodeCycB] }

/-- The embedded graph `B` of flattening Scenario E: one node `b1`
producing output `o`, exported as graph output `o`. -/
def graphB : Graph :=
  { name := "B"
    nodes := [{ name := "b1", entrypoint := ep
                outputs := [{ name := "o", iotype := "FILE" }] }]
    outputs := [{ name := "o", iotype := "FILE"
                  source := { node := some "b1", output := some "o" } }] }

/-- The parent graph `P` of Scenario E: embeds `B` as subgraph `S` and has
one node `p1` whose input sources `FromSubgraph(S, o)`. -/
def graphP : Graph :=
  { name := "P"
    nodes := [{ name := "p1", entrypoint := ep
                inputs := [{ name := "i", iotype := "FILE"
                             source := { subgraph := some "S", output := some "o" } }] }]
    subgraphs := [{ name := "S", graph := "B"
                    outputs := [{ name := "o", iotype := "FILE" }] }] }

/-- The Scenario E package. -/
def pkgE : Package :=
  { graphs := [graphP, graphB] }

/-- A package with two graphs that embed each other (`P` embeds `Q`, `Q`
embeds `P`): indirect recursive embedding. -/
def pkgPQ : Package :=
  { graphs :=
      [{ name := "P", subgraphs := [{ name := "sQ", graph := "Q" }] },
       { name := "Q", subgraphs := [{ name := "sP", graph := "P" }] }] }

/-- A diamond of embeddings: `P` embeds `Q` and `R`, and both `Q` and `R`
embed `S`, so `S` is reached from two independent paths but no graph
embeds itself. -/
def pkgDiamond : Package :=
  { graphs :=
      [{ name := "P", subgraphs := [{ name := "q", graph := "Q" },
                                    { name := "r", graph := "R" }] },
       { name := "Q", subgraphs := [{ name := "s1", graph := "S" }] },
       { name := "R", subgraphs := [{ name := "s2", graph := "S" }] },
       { name := "S" }] }

/-- A package with duplicate graph names *and* a dangling subgraph
reference: validation trips over the duplicate names first. -/
def pkgDupAndDangling : Package :=
  { graphs :=
      [{ name := "A", subgraphs := [{ name := "s", graph := "missing" }] },
       { name := "A" }] }

/-- A package whose only defect is one subgraph referencing a graph
absent from the package. -/
def pkgDanglingOnly : Package :=
  { graphs := [{ name := "G", subgraphs := [{ name := "s", graph := "missing" }] }] }

/-- A `DataSource` with the graph-input variant populated *and* a stray
`output` field: the code accepts it. -/
def dsGraphInputPlusOutput : DataSource :=
  { output := some "y", graph_input := some "x" }

/-- A one-graph package used to exercise `flatten_graph` on a name absent
from a non-empty package. -/
def pkgSolo : Package :=
  { graphs := [{ name := "G" }] }

/-- A graph declaring one required input and containing no nodes. -/
def graphOneInput : Graph :=
  { name := "W", inputs := [{ name := "x", iotype := "FILE" }] }

/-- Scenario B's node `A`: no inputs, one output `o`. -/
def nodeA : Node :=
  { name := "A", entrypoint := ep, outputs := [{ name := "o", iotype := "FILE" }] }

/-- Scenario B's node `B` with the broken reference: one input sourced
from `A`'s output `x`, which `A` does not declare. -/
def nodeB : Node :=
  { name := "B", entrypoint := ep
    inputs := [{ name := "i", iotype := "FILE"
                 source := { node := some "A", output := some "x" } }] }

/-- The Scenario B graph (broken variant): `[A, B]`. -/
def graphAB : Graph :=
  { name := "G", nodes := [nodeA, nodeB] }

/-- The dispatcher that returns the output placeholders untouched (a
handler that does nothing). -/
def idDisp : Dispatcher := fun _ _ placeholders => placeholders

end Pir

deriving instance DecidableEq for Except

namespace Pir

/-! ## Claim theorems -/

/-- C1: the claim states that every graph containing a directed cycle of
length ≥ 2 among its nodes and subgraphs fails `Graph.validate()` with a
CycleError.  The code violates this (and its own docstring, which
promises a `ValidationError` for any cyclic graph): in `graphCycleBug`
the vertices `a` and `b` form a 2-cycle, yet `validate` succeeds,
because the walk rooted at the acyclic entry vertex `c` marks `a` and
`b` visited, and the later walks rooted at `a` and at `b` — the only
walks that could see the back-edge to their root — are skipped by the
persistent visited set at their very first pop. -/
theorem claim1_cycle_missed_by_validator :
    specEdge graphCycleBug "a" "b" = true ∧
    specEdge graphCycleBug "b" "a" = true ∧
    graphCycleBug.validate = .ok () := by decide

/-- C2 (Scenario E): flattening `P` (which embeds `B` as subgraph `S`,
where `B`'s node `b1` produces output `o`, and `P`'s node `p1` sources
`FromSubgraph(S, o)`) yields a graph whose nodes are `p1` and `S.b1` and
in which `p1`'s input now sources `FromNode("S.b1", "o")`. -/
theorem claim2_flatten_scenario_e :
    (pkgE.flattenGraph "P" true).map (fun g => g.nodes.map Node.name) =
      .ok ["p1", "S.b1"] ∧
    (pkgE.flattenGraph "P" true).map (fun g => g.nodes.map (fun n => n.inputs.map Input.source)) =
      .ok [[{ node := some "S.b1", output := some "o" }], []] := by decide

/-- C4 (Scenario C): a package whose graphs `P` and `Q` embed each other
fails `Package.validate()` with the package-level CycleError, while the
diamond package — in which `S` is embedded from two independent paths
but no graph transitively embeds itself — validates successfully,
because the recursion check tracks the current path rather than a global
visited set. -/
theorem claim4_package_embedding_cycle_and_diamond :
    pkgPQ.validate = .error (.validationError "package contains recursive subgraphs") ∧
    pkgDiamond.validate = .ok () := by decide

/-- C3, counterexample: a package can contain a dangling subgraph
reference and still fail `Package.validate()` with a *different* error
than the DanglingReferenceError naming the missing graph — here the
duplicate-graph-name check fires first. -/
theorem claim3_dangling_not_always_dangling_error :
    hasDanglingSubgraph pkgDupAndDangling = true ∧
    pkgDupAndDangling.validate =
      .error (.validationError "duplicate graph name(s): 'A'") ∧
    pkgDupAndDangling.validate ≠
      .error (.validationError "subgraph 's' refers to missing graph 'missing'") := by decide

/-- C5, counterexample: the claim's exactly-one-variant predicate rejects
a source that populates `graph_input` together with a stray `output`
field (a field of the node/subgraph variants), but `DataSource.validate`
accepts it — the code never looks at `output` when `graph_input` is the
populated variant. -/
theorem claim5_output_with_graph_input_accepted :
    ¬ (dsGraphInputPlusOutput.validate = .ok () ↔
        specDataSourceOk dsGraphInputPlusOutput = true) := by decide

/-- C7, counterexample: flattening a graph name absent from the package
fails with a *plain* `ValueError`, not with the `ValidationError` kind
(the kind carrying all DanglingReferenceError conditions) that the claim
asserts. -/
theorem claim7_flatten_missing_name_value_error_kind :
    Package.flatten_graph { graphs := [] } 1 "g" true =
      .error (.valueError "graph with name 'g' not found in package") ∧
    resultIsValidationError (Package.flatten_graph { graphs := [] } 1 "g" true) = false := by
  decide

/-- C7, amended: for every package and every graph name absent from it
(and any positive recursion budget and either validation flag),
`flatten_graph` fails with the plain `ValueError` naming the missing
graph. -/
theorem claim7_flatten_missing_name_raises_value_error
    (p : Package) (fuel : Nat) (graph_name : String) (validate : Bool)
    (h : find_by_name p.graphs graph_name = none) :
    p.flatten_graph (fuel + 1) graph_name validate =
      .error (.valueError ("graph with name '" ++ graph_name ++ "' not found in package")) := by
  unfold Package.flatten_graph
  rw [h]

/-- C7 witness: flattening the missing name `h` out of the one-graph
package fails with the plain `ValueError`. -/
theorem claim7_flatten_missing_name_raises_value_error_witness :
    pkgSolo.flatten_graph 2 "h" true =
      .error (.valueError "graph with name 'h' not found in package") := by
  exact claim7_flatten_missing_name_raises_value_error pkgSolo 1 "h" true (by decide)

/-- C5, amended: `DataSource.validate` succeeds exactly when one of
`node`, `subgraph`, `graph_input` is populated with the other two
absent, and `output` is also populated whenever the populated variant is
`node` or `subgraph`; a stray `output` next to `graph_input` is *not*
rejected. -/
theorem claim5_datasource_validate_iff (s : DataSource) :
    s.validate = .ok () ↔
      ((s.node.isSome ∧ s.output.isSome ∧ s.subgraph = none ∧ s.graph_input = none) ∨
       (s.subgraph.isSome ∧ s.output.isSome ∧ s.node = none ∧ s.graph_input = none) ∨
       (s.graph_input.isSome ∧ s.node = none ∧ s.subgraph = none)) := by
  obtain ⟨n, sg, o, gi⟩ := s
  cases n <;> cases sg <;> cases o <;> cases gi <;>
    simp [DataSource.validate, _validate_fields]

/-- C5 witness: the amended characterization evaluated at the
graph-input-plus-output source, which validates successfully. -/
theorem claim5_datasource_validate_iff_witness :
    dsGraphInputPlusOutput.validate = .ok () ↔
      ((dsGraphInputPlusOutput.node.isSome ∧ dsGraphInputPlusOutput.output.isSome ∧
          dsGraphInputPlusOutput.subgraph = none ∧ dsGraphInputPlusOutput.graph_input = none) ∨
       (dsGraphInputPlusOutput.subgraph.isSome ∧ dsGraphInputPlusOutput.output.isSome ∧
          dsGraphInputPlusOutput.node = none ∧ dsGraphInputPlusOutput.graph_input = none) ∨
       (dsGraphInputPlusOutput.graph_input.isSome ∧ dsGraphInputPlusOutput.node = none ∧
          dsGraphInputPlusOutput.subgraph = none)) :=
  claim5_datasource_validate_iff dsGraphInputPlusOutput

/-- Membership in the `twice` collection computed by one pass of
`dupAux`: a name ends up in the result exactly when it was already
collected, or was pending in `once` and occurs again, or occurs at least
twice in the remaining names. -/
theorem mem_dupAux (n : String) :
    ∀ (xs once twice : List String),
      n ∈ dupAux xs once twice ↔
        n ∈ twice ∨ (n ∈ once ∧ n ∈ xs) ∨ 2 ≤ xs.count n := by
  intro xs
  induction xs with
  | nil => intro once twice; simp [dupAux]
  | cons x xs ih =>
    intro once twice
    by_cases hxo : x ∈ once
    · rw [dupAux, if_pos hxo, ih]
      by_cases hnx : n = x
      · subst hnx
        by_cases hnt : n ∈ twice
        · simp [hnt, hxo]
        · simp [hnt, hxo, List.mem_append]
      · have hcnt : (x :: xs).count n = xs.count n := by
          rw [List.count_cons_of_ne hnx]
        by_cases hxt : x ∈ twice
        · simp [hxt, hnx, hcnt, List.mem_cons]
        · simp [hxt, hnx, hcnt, List.mem_append, List.mem_cons]
    · rw [dupAux, if_neg hxo, ih]
      by_cases hnx : n = x
      · subst hnx
        have h2 : (n :: xs).count n = xs.count n + 1 := List.count_cons_self n xs
        constructor
        · rintro (hnt | ⟨ho, hx⟩ | hc)
          · exact Or.inl hnt
          · rcases List.mem_append.mp ho with ho' | ho'
            · exact Or.inr (Or.inl ⟨ho', List.mem_cons_self n xs⟩)
            · refine Or.inr (Or.inr ?_)
              rw [h2]
              have : 0 < xs.count n := List.count_pos_iff.mpr hx
              omega
          · exact Or.inr (Or.inr (by rw [h2]; omega))
        · rintro (hnt | ⟨ho, _⟩ | hc)
          · exact Or.inl hnt
          · exact absurd ho hxo
          · rw [h2] at hc
            refine Or.inr (Or.inl ⟨List.mem_append.mpr (Or.inr (List.mem_singleton.mpr rfl)), ?_⟩)
            exact List.count_pos_iff.mp (by omega)
      · have hcnt : (x :: xs).count n = xs.count n := by
          rw [List.count_cons_of_ne hnx]
        simp [List.mem_append, hnx, hcnt]

/-- A name is listed by `dupNames` exactly when it occurs at least twice. -/
theorem mem_dupNames (names : List String) (n : String) :
    n ∈ dupNames names ↔ 2 ≤ names.count n := by
  simp [dupNames, mem_dupAux]

/-- `dupNames` is empty exactly when the names are pairwise distinct. -/
theorem dupNames_eq_nil_iff (names : List String) :
    dupNames names = [] ↔ names.Nodup := by
  rw [List.eq_nil_iff_forall_not_mem, List.nodup_iff_count_le_one]
  constructor
  · intro h a
    have := h a
    rw [mem_dupNames] at this
    omega
  · intro h a
    rw [mem_dupNames]
    have := h a
    omega

/-- C6: the name-uniqueness check succeeds exactly when all names are
unique, and the collection of names its error reports (`dupNames`, from
which the message is assembled) contains exactly the names occurring
more than once, listed without regard to order. -/
theorem claim6_validate_names_iff {α : Type} [Named α] (items : List α) (label : String) :
    (_validate_names items label = .ok () ↔
      (items.map (Named.name : α → String)).Nodup) ∧
    (∀ n, n ∈ dupNames (items.map (Named.name : α → String)) ↔
      2 ≤ (items.map (Named.name : α → String)).count n) := by
  constructor
  · unfold _validate_names
    rw [← dupNames_eq_nil_iff]
    cases h : dupNames (items.map (Named.name : α → String)) with
    | nil => simp
    | cons y ys => simp [h]
  · intro n
    exact mem_dupNames _ n

/-- C6 witness: the characterization at a concrete two-element collection
with a repeated name. -/
theorem claim6_validate_names_iff_witness :
    (_validate_names [nodeA, nodeA] "node" = .ok () ↔
      ([nodeA, nodeA].map (Named.name : Node → String)).Nodup) ∧
    ("A" ∈ dupNames ([nodeA, nodeA].map (Named.name : Node → String)) ↔
      2 ≤ ([nodeA, nodeA].map (Named.name : Node → String)).count "A") :=
  ⟨(claim6_validate_names_iff [nodeA, nodeA] "node").1,
   (claim6_validate_names_iff [nodeA, nodeA] "node").2 "A"⟩

/-- The subgraph loop of `Package.validate` cannot succeed while the list
still contains a subgraph whose referenced graph is absent from the
package: reaching that subgraph raises the dangling-reference error, and
failing earlier is failure all the same. -/
theorem subgraphLoop_ne_ok (p : Package) (sgs : List Subgraph)
    (h : ∃ s ∈ sgs, find_by_name p.graphs s.graph = none) :
    Package.subgraphLoop p sgs ≠ .ok () := by
  induction sgs with
  | nil => simp at h
  | cons s rest ih =>
    intro hok
    unfold Package.subgraphLoop at hok
    rcases h with ⟨t, ht, hnone⟩
    rcases List.mem_cons.mp ht with rfl | hmem
    · rw [Package._validate_subgraph, hnone] at hok
      exact Except.noConfusion hok
    · cases hv : p._validate_subgraph s with
      | error e => rw [hv] at hok; exact Except.noConfusion hok
      | ok u => rw [hv] at hok; exact ih ⟨t, hmem, hnone⟩ hok

/-- The per-graph loop of `Package.validate` cannot succeed while the
list still contains a graph one of whose subgraphs references a graph
absent from the package. -/
theorem validateLoop_ne_ok (p : Package) (gs : List Graph)
    (h : ∃ g ∈ gs, ∃ s ∈ g.subgraphs, find_by_name p.graphs s.graph = none) :
    Package.validateLoop p gs ≠ .ok () := by
  induction gs with
  | nil => simp at h
  | cons g rest ih =>
    intro hok
    unfold Package.validateLoop at hok
    cases h1 : withCtx ("graph '" ++ g.name ++ "'") g.validate with
    | error e => rw [h1] at hok; exact Except.noConfusion hok
    | ok u1 =>
      rw [h1] at hok
      cases h2 : Package.subgraphLoop p g.subgraphs with
      | error e => rw [h2] at hok; exact Except.noConfusion hok
      | ok u2 =>
        rw [h2] at hok
        cases h3 : Package.recCheck p g with
        | error e => rw [h3] at hok; exact Except.noConfusion hok
        | ok u3 =>
          rw [h3] at hok
          rcases h with ⟨t, ht, hs⟩
          rcases List.mem_cons.mp ht with rfl | hmem
          · exact subgraphLoop_ne_ok p t.subgraphs hs h2
          · exact ih ⟨t, hmem, hs⟩ hok

/-- C3, amended: a package in which some declared subgraph references a
graph name absent from the package never validates successfully.  (The
error is the DanglingReferenceError naming the missing graph only when
that check is the first violation reached; an earlier check — duplicate
graph names, an individually invalid graph, or an earlier graph's
recursion walk hitting the missing reference — surfaces its own error
instead, as the counterexample shows.) -/
theorem claim3_dangling_validation_never_succeeds (p : Package)
    (h : hasDanglingSubgraph p = true) :
    p.validate ≠ .ok () := by
  intro hok
  unfold Package.validate at hok
  cases h0 : _validate_names p.graphs "graph" with
  | error e => rw [h0] at hok; exact Except.noConfusion hok
  | ok u0 =>
    rw [h0] at hok
    refine validateLoop_ne_ok p p.graphs ?_ hok
    simpa [hasDanglingSubgraph, List.any_eq_true, Option.isNone_iff_eq_none] using h

/-- C3 witness: the package whose only defect is the dangling subgraph
reference indeed fails validation. -/
theorem claim3_dangling_validation_never_succeeds_witness :
    pkgDanglingOnly.validate ≠ .ok () :=
  claim3_dangling_validation_never_succeeds pkgDanglingOnly (by decide)

/-- C8: executing a flattened graph with an input map that lacks a value
for some declared graph input fails with the missing-input `ValueError`
(naming the first such input in declaration order) and performs no
dispatcher invocation — the trace of executed nodes is empty. -/
theorem claim8_missing_graph_input_aborts_before_dispatch
    (disp : Dispatcher) (g : Graph) (inputs : ValueDict) (nm : String)
    (h : firstMissingInput g inputs = some nm) :
    executeFlat disp g inputs =
      ([], .error (.valueError ("missing input '" ++ nm ++ "'"))) := by
  unfold firstMissingInput at h
  unfold executeFlat
  cases hf : g.inputs.find? (fun inp => !(dmem inputs inp.name)) with
  | none => rw [hf] at h; exact Option.noConfusion h
  | some inp =>
    rw [hf] at h
    have hnm : inp.name = nm := by simpa using h
    subst hnm
    rfl

/-- C8 witness: executing the one-input graph with the empty input map
fails with the missing-input error and an empty execution trace. -/
theorem claim8_missing_graph_input_aborts_before_dispatch_witness :
    executeFlat idDisp graphOneInput [] =
      ([], .error (.valueError "missing input 'x'")) := by
  exact claim8_missing_graph_input_aborts_before_dispatch idDisp graphOneInput [] "x" (by decide)

/-- A dict lookup misses when the key is not among the stored keys. -/
theorem dget_eq_none_of_not_mem {β : Type} (d : List (String × β)) (k : String)
    (h : k ∉ d.map Prod.fst) : dget d k = none := by
  induction d with
  | nil => rfl
  | cons kv rest ih =>
    simp only [List.map_cons, List.mem_cons, not_or] at h
    obtain ⟨h1, h2⟩ := h
    unfold dget
    rw [List.find?_cons_of_neg]
    · exact ih h2
    · simp only [beq_iff_eq]
      exact fun he => h1 he.symm

/-- With node `A` executed and its produced outputs lacking the key `x`,
the next scheduling pass over `graphAB` finds `B` not ready (its node
source's output key is absent from `A`'s produced map), exhausts the
scan, and aborts with the stuck-execution error. -/
theorem execLoop_graphAB_stuck (disp : Dispatcher) (D : ValueDict)
    (hxD : dget D "x" = none) :
    execLoop disp graphAB [] 2 [("A", D)] ["A"] =
      (["A"], .error (.runtimeError "could not finish execution")) := by
  have hxD' : (List.find? (fun kv => kv.1 == "x") D).map Prod.snd = none := hxD
  have hb : buildInputs [] [("A", D)]
      [{ name := "i", iotype := "FILE"
         source := { node := some "A", output := some "x" } }] [] = .notReady := by
    simp [buildInputs, dget, hxD']
  simp [execLoop, graphAB, nodeA, nodeB, selectNode, dmem, dget, hb]

/-- C9 (Scenario B, broken variant): on the unvalidated graph with node
`A` (one output `o`) and node `B` (one input naming `A`'s nonexistent
output `x`), execution dispatches `A` — for any dispatcher that fills
exactly the pre-allocated placeholders — then finds no remaining node
whose inputs are all ready (a node source is ready only when the
referenced node is in the produced map *and* the named output key is
present there) and fails with the stuck-execution `RuntimeError`. -/
theorem claim9_stuck_execution (disp : Dispatcher)
    (hdisp : (disp nodeA [] (initPlaceholders nodeA)).map Prod.fst =
             (initPlaceholders nodeA).map Prod.fst) :
    executeFlat disp graphAB [] =
      (["A"], .error (.runtimeError "could not finish execution")) := by
  have hx : dget (disp nodeA [] (initPlaceholders nodeA)) "x" = none := by
    apply dget_eq_none_of_not_mem
    rw [hdisp]
    decide
  have h1 : executeFlat disp graphAB [] =
      (match execLoop disp graphAB [] 3 [] [] with
       | (trace, .error e) => (trace, .error e)
       | (trace, .ok node_outputs) => (trace, assembleOutputs graphAB [] node_outputs)) := rfl
  have h2 : execLoop disp graphAB [] 3 [] [] =
      execLoop disp graphAB [] 2 [("A", disp nodeA [] (initPlaceholders nodeA))] ["A"] := rfl
  rw [h1, h2, execLoop_graphAB_stuck disp _ hx]

/-- C9 witness: with the placeholder-returning dispatcher, execution of
the broken two-node graph dispatches `A` and then sticks. -/
theorem claim9_stuck_execution_witness :
    executeFlat idDisp graphAB [] =
      (["A"], .error (.runtimeError "could not finish execution")) := by
  exact claim9_stuck_execution idDisp (by decide)

end Pir
